import Mathlib

/-!
Shallow embedding of the core of the webunlock headless-browser rendering
service, together with theorems checking its specification.

Source files embedded below:
- src/api/rate-limiter.ts       (RateLimiter.isAllowed)
- src/proxy/proxyManager.ts     (parseProxy, toPlaywrightProxy, hasProxy)
- src/browser/contextFactory.ts (createContext: proxy decision, cleanup)
- src/renderer/pageLoader.ts    (loadPage)
- src/utils/waitConditions.ts   (executeWaitFor)
- src/renderer/renderWorker.ts  (render, renderWithTimeout)
- src/api renderController      (handleRender status mapping)
- browserPool (BrowserPool: launchBrowser, findAvailableBrowser, acquire,
  createContextFromInstance with its cleanup override, processQueue)

Calls that cross into the platform or the browser engine (`Date.now`,
`new URL`, `chromium.launch`, `browser.newContext`, navigation, selector
waits) enter the model as explicit oracle arguments: a clock value, a
URL-parse function, a launch-success flag, a context-creation outcome.
Everything on the service's side of that boundary is translated from the
source.
-/

namespace WebUnlock

/-! ### Small string helpers (JS semantics)

Lean core's `String` functions are compiled externs whose Lean models do not
kernel-reduce, so the string operations the source relies on are defined here
as structural recursions over the character list; this keeps every definition
evaluable on concrete inputs. -/

/-- Characters removed by JS `String.prototype.trim` (the whitespace forms
relevant to the inputs at hand). -/
def isTrimChar (c : Char) : Bool :=
  c == ' ' || c == '\t' || c == '\n' || c == '\r'

/-- Remove leading characters satisfying `p`. -/
def dropLeading (p : Char → Bool) : List Char → List Char
  | [] => []
  | c :: cs => if p c then dropLeading p cs else c :: cs

/-- JS `s.trim()`. -/
def strTrim (s : String) : String :=
  ⟨(dropLeading isTrimChar ((dropLeading isTrimChar s.data).reverse)).reverse⟩

/-- Does the first character list start with the second? -/
def listHasLead : List Char → List Char → Bool
  | _, [] => true
  | [], _ :: _ => false
  | c :: cs, p :: ps => c == p && listHasLead cs ps

/-- JS `s.startsWith(pat)`. -/
def strStartsWith (s pat : String) : Bool :=
  listHasLead s.data pat.data

/-- Does the first character list contain the second as a contiguous run? -/
def listHasSub : List Char → List Char → Bool
  | [], pat => listHasLead [] pat
  | c :: cs, pat => listHasLead (c :: cs) pat || listHasSub cs pat

/-- JS `s.includes(pat)`. -/
def strContains (s pat : String) : Bool :=
  listHasSub s.data pat.data

/-- JS `s.slice(n)` on the content at hand: drop the first `n` characters. -/
def strDrop (s : String) (n : Nat) : String :=
  ⟨s.data.drop n⟩

/-- JS `s.replace(c, '')` with a single-character string pattern: remove the
first occurrence only, as JS `replace` does. -/
def removeFirstChar : List Char → Char → List Char
  | [], _ => []
  | c :: cs, d => if c == d then cs else c :: removeFirstChar cs d

/-- `url.protocol.replace(':', '')`. -/
def stripColon (s : String) : String :=
  ⟨removeFirstChar s.data ':'⟩

/-- Digit accumulator for `parsePort`. -/
def parsePortDigits : List Char → Nat → Option Nat
  | [], acc => some acc
  | c :: cs, acc =>
      if c.isDigit then parsePortDigits cs (acc * 10 + (c.toNat - 48)) else none

/-- `parseInt(s, 10)` on a `URL` port string, which is empty or pure digits:
`none` models `NaN` (empty input). -/
def parsePort (s : String) : Option Nat :=
  match s.data with
  | [] => none
  | c :: cs => parsePortDigits (c :: cs) 0

/-! ### RateLimiter (src/api/rate-limiter.ts) -/

/-- One entry of the limiter's `store` map: `{count, windowStart}`. -/
structure RateLimitEntry where
  count : Nat
  windowStart : Int
  deriving Repr, DecidableEq

/-- The limiter's configuration fields read by `isAllowed`. -/
structure RateLimitConfig where
  windowMs : Nat
  maxRequests : Nat
  enabled : Bool
  deriving Repr, DecidableEq

/-- The record returned by `RateLimiter.isAllowed`. -/
structure AllowResult where
  allowed : Bool
  remaining : Int
  resetAt : Int
  deriving Repr, DecidableEq

/-- `RateLimiter.isAllowed(key)` for a single key. The stored entry for that
key (`none` when the map has no entry) and the clock `now` (`Date.now()`) are
explicit inputs; the call returns the updated stored entry together with the
result record. The source's combined test `!entry || now - windowStart >= windowMs`
is rendered as the `none` case plus the expiry test of the `some` case. -/
def isAllowed (cfg : RateLimitConfig) (entry : Option RateLimitEntry) (now : Int) :
    Option RateLimitEntry × AllowResult :=
  if !cfg.enabled then
    (entry, { allowed := true, remaining := (cfg.maxRequests : Int), resetAt := 0 })
  else
    match entry with
    | none =>
        (some { count := 1, windowStart := now },
         { allowed := true, remaining := (cfg.maxRequests : Int) - 1,
           resetAt := now + (cfg.windowMs : Int) })
    | some e =>
        if (cfg.windowMs : Int) ≤ now - e.windowStart then
          (some { count := 1, windowStart := now },
           { allowed := true, remaining := (cfg.maxRequests : Int) - 1,
             resetAt := now + (cfg.windowMs : Int) })
        else if cfg.maxRequests ≤ e.count then
          (some e,
           { allowed := false, remaining := 0,
             resetAt := e.windowStart + (cfg.windowMs : Int) })
        else
          (some { count := e.count + 1, windowStart := e.windowStart },
           { allowed := true, remaining := (cfg.maxRequests : Int) - ((e.count : Int) + 1),
             resetAt := e.windowStart + (cfg.windowMs : Int) })

/-- Fold a list of call times through `isAllowed` for one key, counting how
many calls were allowed. -/
def runIsAllowed (cfg : RateLimitConfig) (entry : Option RateLimitEntry) (times : List Int) :
    Option RateLimitEntry × Nat :=
  match times with
  | [] => (entry, 0)
  | t :: ts =>
      let step := isAllowed cfg entry t
      let rest := runIsAllowed cfg step.1 ts
      (rest.1, (if step.2.allowed then 1 else 0) + rest.2)

/-! ### Proxy manager (src/proxy/proxyManager.ts) -/

/-- The request's proxy configuration (validated shape from the API schema). -/
structure ProxyConfig where
  server : String
  username : Option String := none
  password : Option String := none
  rotate : Bool := false
  deriving Repr, DecidableEq

/-- The fields of a WHATWG `URL` object that `parseProxy` reads. `new URL` is a
platform primitive, so URL parsing enters the model as an oracle
`String → Option URLParts`, with `none` modelling the constructor throwing.
`protocol` carries its trailing colon exactly as `url.protocol` does; `port` is
the serialized port string (empty when absent or elided); `username` and
`password` are the userinfo components (empty when absent). -/
structure URLParts where
  protocol : String
  hostname : String
  port : String
  username : String
  password : String
  deriving Repr, DecidableEq

/-- `server.includes('://') ? server : 'http://' + server`. -/
def serverWithProtocol (server : String) : String :=
  if strContains server "://" then server else "http://" ++ server

/-- JS `a || b || undefined` on an optional string `a` and a string `b`:
empty strings are falsy and collapse to `undefined` (`none`). -/
def jsOrString (a : Option String) (b : String) : Option String :=
  match a with
  | some s => if s ≠ "" then some s else if b ≠ "" then some b else none
  | none => if b ≠ "" then some b else none

/-- `parseInt(url.port, 10) || dflt`: both `NaN` (empty port string) and `0`
are falsy and fall back to the default. -/
def portOrDefault (port : String) (dflt : Nat) : Nat :=
  match parsePort port with
  | some n => if n ≠ 0 then n else dflt
  | none => dflt

/-- The `parsed` payload of a successful `parseProxy`. -/
structure ParsedProxy where
  server : String
  protocol : String
  host : String
  port : Nat
  username : Option String := none
  password : Option String := none
  deriving Repr, DecidableEq

/-- The result record of `parseProxy`. -/
structure ProxyValidationResult where
  valid : Bool
  error : Option String := none
  parsed : Option ParsedProxy := none
  deriving Repr, DecidableEq

/-- `parseProxy` from src/proxy/proxyManager.ts. `urlParse` is the
`new URL` oracle applied to the protocol-completed server string. -/
def parseProxy (cfg : ProxyConfig) (urlParse : String → Option URLParts) :
    ProxyValidationResult :=
  match urlParse (serverWithProtocol cfg.server) with
  | none => { valid := false, error := some ("Invalid proxy server URL: " ++ cfg.server) }
  | some url =>
      let protocol := stripColon url.protocol
      if !(["http", "https", "socks5"].contains protocol) then
        { valid := false,
          error := some ("Unsupported proxy protocol: " ++ protocol ++ ". Use http, https, or socks5.") }
      else
        let host := url.hostname
        let port := portOrDefault url.port (if protocol = "https" then 443 else 8080)
        if host = "" then
          { valid := false, error := some "Proxy host is required" }
        else
          let parsed : ParsedProxy :=
            { server := protocol ++ "://" ++ host ++ ":" ++ toString port
              protocol := protocol
              host := host
              port := port
              username := jsOrString cfg.username url.username
              password := jsOrString cfg.password url.password }
          if (parsed.username.isSome && !parsed.password.isSome)
              || (!parsed.username.isSome && parsed.password.isSome) then
            { valid := false,
              error := some "Both username and password must be provided for authenticated proxies" }
          else
            { valid := true, parsed := some parsed }

/-- Playwright's proxy option shape. -/
structure PlaywrightProxy where
  server : String
  username : Option String := none
  password : Option String := none
  deriving Repr, DecidableEq

/-- `toPlaywrightProxy`: `null` when validation failed, otherwise the
normalized server plus credentials when both are present. -/
def toPlaywrightProxy (cfg : ProxyConfig) (urlParse : String → Option URLParts) :
    Option PlaywrightProxy :=
  let result := parseProxy cfg urlParse
  if result.valid = false then none
  else
    match result.parsed with
    | none => none
    | some p =>
        match p.username, p.password with
        | some u, some pw => some { server := p.server, username := some u, password := some pw }
        | _, _ => some { server := p.server }

/-- `hasProxy`: `!!(config?.server && config.server.trim().length > 0)`. -/
def hasProxy (cfg : Option ProxyConfig) : Bool :=
  match cfg with
  | none => false
  | some c => c.server != "" && strTrim c.server != ""

/-! ### Context factory (src/browser/contextFactory.ts): proxy decision -/

/-- The proxy-relevant slice of `createContext`: `proxyUsed` is `hasProxy(proxy)`,
and the `proxy` option actually passed to `browser.newContext` is
`toPlaywrightProxy(proxy)` when `proxyUsed && proxy` and that call returned a
value, otherwise nothing. Returns `(proxyUsed, playwrightProxy)`. -/
def contextProxyDecision (proxy : Option ProxyConfig) (urlParse : String → Option URLParts) :
    Bool × Option PlaywrightProxy :=
  let proxyUsed := hasProxy proxy
  let playwrightProxy : Option PlaywrightProxy :=
    match proxy with
    | some p => if proxyUsed then toPlaywrightProxy p urlParse else none
    | none => none
  (proxyUsed, playwrightProxy)

/-! ### Page loader (src/renderer/pageLoader.ts) -/

/-- The slice of a Playwright navigation `Response` that `loadPage` reads. -/
structure NavResponse where
  status : Nat
  deriving Repr, DecidableEq

/-- Outcome of the engine's `page.goto` call under the timeout wrapper:
it resolves (possibly with a `null` response) or rejects with a message. -/
inductive NavOutcome where
  | resolved (response : Option NavResponse)
  | failed (message : String)
  deriving Repr, DecidableEq

/-- The `NavigationResult` record produced by `loadPage`. -/
structure NavigationResult where
  success : Bool
  response : Option NavResponse
  finalUrl : String
  httpStatus : Nat
  loadTimeMs : Nat
  error : Option String := none
  deriving Repr, DecidableEq

/-- `loadPage` from src/renderer/pageLoader.ts. The navigation itself is the
oracle `outcome`; `pageUrl` is what `page.url()` returns afterwards, `url` the
requested URL, and `loadTimeMs` the measured wall clock. -/
def loadPage (outcome : NavOutcome) (pageUrl url : String) (timeout_ms loadTimeMs : Nat) :
    NavigationResult :=
  match outcome with
  | .resolved none =>
      { success := true, response := none, finalUrl := pageUrl,
        httpStatus := 200, loadTimeMs := loadTimeMs }
  | .resolved (some r) =>
      { success := true, response := some r, finalUrl := pageUrl,
        httpStatus := r.status, loadTimeMs := loadTimeMs }
  | .failed msg =>
      if strContains msg "timeout" || strContains msg "Timeout" then
        { success := false, response := none,
          finalUrl := if pageUrl != "" then pageUrl else url,
          httpStatus := 0, loadTimeMs := loadTimeMs,
          error := some ("Navigation timeout: " ++ toString timeout_ms ++ "ms exceeded") }
      else if strContains msg "net::" || strContains msg "ERR_" then
        { success := false, response := none, finalUrl := url,
          httpStatus := 0, loadTimeMs := loadTimeMs,
          error := some ("Network error: " ++ msg) }
      else
        { success := false, response := none, finalUrl := url,
          httpStatus := 0, loadTimeMs := loadTimeMs, error := some msg }

/-! ### Wait conditions (src/utils/waitConditions.ts) -/

/-- The engine primitive selected by `executeWaitFor`: a selector wait in the
`attached` state or a `waitForFunction` wait, each with its sub-timeout. -/
inductive WaitCall where
  | selectorAttached (selector : String) (timeoutMs : Nat)
  | jsFunction (body : String) (timeoutMs : Nat)
  deriving Repr, DecidableEq

/-- The `WaitResult` record of `executeWaitFor`. -/
structure WaitForResult where
  success : Bool
  error : Option String := none
  durationMs : Nat
  deriving Repr, DecidableEq

/-- The prefix dispatch of `executeWaitFor`: `css:` strips 4 characters and
trims into a selector wait; `js:` strips 3 characters and trims into a
function wait; anything else is a bare CSS selector. The request timeout is
threaded into the engine call. -/
def waitForCall (waitFor : String) (timeoutMs : Nat) : WaitCall :=
  if strStartsWith waitFor "css:" then .selectorAttached (strTrim (strDrop waitFor 4)) timeoutMs
  else if strStartsWith waitFor "js:" then .jsFunction (strTrim (strDrop waitFor 3)) timeoutMs
  else .selectorAttached waitFor timeoutMs

/-- `executeWaitFor`: dispatch on the prefix, run the engine call (oracle),
and map a rejection to `{success: false, error}` via the surrounding
`try/catch`. `durationMs` is the measured wall clock. -/
def executeWaitFor (waitFor : String) (timeoutMs : Nat)
    (engine : WaitCall → Except String Unit) (durationMs : Nat) : WaitForResult :=
  match engine (waitForCall waitFor timeoutMs) with
  | .ok _ => { success := true, durationMs := durationMs }
  | .error e => { success := false, error := some e, durationMs := durationMs }

/-! ### Render worker (src/renderer/renderWorker.ts) -/

/-- The `meta` fields of a render response that the claims read. -/
structure RenderMeta where
  proxy_used : Bool
  http_status : Nat
  js_rendered : Bool
  deriving Repr, DecidableEq

/-- One entry of a response's `errors` array. -/
structure RenderErrorItem where
  code : String
  message : String
  details : Option String := none
  deriving Repr, DecidableEq

/-- A render response; a `null` errors array is modelled as `[]`. -/
structure RenderResponseM where
  success : Bool
  request_id : String
  final_url : String
  meta : Option RenderMeta := none
  errors : List RenderErrorItem := []
  deriving Repr, DecidableEq

/-- The post-acquisition stages of `render` that decide the response shape.
Stage effects on the live page are oracles. Faithful control flow: a failed
navigation short-circuits to a `NAVIGATION_FAILED` error response; when
`wait_for` is present its result is computed with the request's `timeout_ms`
as sub-timeout and only logged (bound and discarded here, as in the source),
so the pipeline continues to a successful response either way. -/
def renderResult (requestId : String) (navigationResult : NavigationResult)
    (wait_for : Option String) (timeout_ms : Nat)
    (engine : WaitCall → Except String Unit) (waitDurationMs : Nat)
    (proxyUsed javascript : Bool) : RenderResponseM :=
  if navigationResult.success = false then
    { success := false, request_id := requestId, final_url := "",
      errors := [{ code := "NAVIGATION_FAILED", message := "Failed to load the page",
                   details := navigationResult.error }] }
  else
    let _waitResult : Option WaitForResult :=
      match wait_for with
      | some w => some (executeWaitFor w timeout_ms engine waitDurationMs)
      | none => none
    { success := true, request_id := requestId, final_url := navigationResult.finalUrl,
      meta := some { proxy_used := proxyUsed, http_status := navigationResult.httpStatus,
                     js_rendered := javascript },
      errors := [] }

/-- `renderWithTimeout`: `inner = none` models the outer `withTimeout` deadline
firing before `render` resolves; the catch block then builds a `TOTAL_TIMEOUT`
error response. -/
def renderWithTimeout (requestId : String) (inner : Option RenderResponseM)
    (maxTimeoutMs : Nat) : RenderResponseM :=
  match inner with
  | some r => r
  | none =>
      { success := false, request_id := requestId, final_url := "",
        errors := [{ code := "TOTAL_TIMEOUT", message := "Total render timeout exceeded",
                     details := some ("Total render timeout exceeded: "
                       ++ toString maxTimeoutMs ++ "ms") }] }

/-! ### Render controller (handleRender): HTTP status mapping -/

/-- How the awaited `renderWithTimeout` call ends inside `handleRender`:
normally with a result, or with a thrown error caught by the handler. -/
inductive RenderCallOutcome where
  | ok (result : RenderResponseM)
  | thrown (message : String)
  deriving Repr, DecidableEq

/-- The HTTP status chosen by `handleRender`: 429 when the rate limiter
denies, 400 when validation fails, then
`success ? 200 : (errors?.[0]?.code === 'TIMEOUT' ? 504 : 500)`, and 500 from
the catch block. -/
def handleRenderStatus (rateAllowed validationOk : Bool) (outcome : RenderCallOutcome) : Nat :=
  if rateAllowed = false then 429
  else if validationOk = false then 400
  else
    match outcome with
    | .thrown _ => 500
    | .ok result =>
        if result.success then 200
        else if (result.errors.head?.map (fun e => e.code)) = some "TIMEOUT" then 504
        else 500

/-! ### Browser pool (BrowserPool)

The pool's `instances` map is a list in insertion order (a JS `Map` iterates
in insertion order), `contextCounts` an association list `id ↦ count` with
counts in `Int` so that the source's `Math.max(0, count - 1)` saturation is
explicit. Engine effects are oracles: `launchOk` for `chromium.launch`,
`contextOutcome` for `createContext`, `now` for `Date.now`. Each public
operation also returns the list of notable internal calls it made
(`PoolEvent`), recording in particular every `this.processQueue()` call site
of the source. -/

/-- `BrowserInstance` fields that the pool's scheduler reads and writes. -/
structure BrowserInstance where
  id : String
  isHealthy : Bool
  createdAt : Int
  lastUsedAt : Int
  deriving Repr, DecidableEq

/-- A queued pending acquisition (the resolve/reject channel and armed timer
are represented by the request identifier they would answer). -/
structure QueueItem where
  reqId : String
  deriving Repr, DecidableEq

/-- The pool's mutable state. -/
structure PoolState where
  instances : List BrowserInstance
  contextCounts : List (String × Int)
  queue : List QueueItem
  isShuttingDown : Bool
  deriving Repr, DecidableEq

/-- The pool's configuration fields used by the embedded operations. -/
structure PoolConfig where
  minBrowsers : Nat
  maxBrowsers : Nat
  maxContextsPerBrowser : Int
  deriving Repr, DecidableEq

/-- A lease as handed to a caller: the owning instance's id (the engine-side
context and page handles live behind the oracle boundary). -/
structure PoolLease where
  browserId : String
  deriving Repr, DecidableEq

/-- Internal calls recorded by the embedded pool operations. -/
inductive PoolEvent where
  | processQueueCalled
  | launchedBrowser (id : String)
  | resolvedPending (reqId browserId : String)
  | rejectedPending (reqId : String)
  deriving Repr, DecidableEq

/-- `this.contextCounts.get(id) || 0`: first entry for `id`, defaulting to 0. -/
def getCount (counts : List (String × Int)) (id : String) : Int :=
  match counts with
  | [] => 0
  | (k, c) :: rest => if k = id then c else getCount rest id

/-- `this.contextCounts.set(id, v)`: replace the entry in place, or append. -/
def setCount (counts : List (String × Int)) (id : String) (v : Int) : List (String × Int) :=
  match counts with
  | [] => [(id, v)]
  | (k, c) :: rest => if k = id then (k, v) :: rest else (k, c) :: setCount rest id v

/-- `instance.lastUsedAt = new Date()` on the instance with the given id. -/
def touchInstance (instances : List BrowserInstance) (id : String) (now : Int) :
    List BrowserInstance :=
  instances.map (fun inst => if inst.id = id then { inst with lastUsedAt := now } else inst)

/-- `findAvailableBrowser`: the first healthy instance whose context count is
below `maxContextsPerBrowser`. -/
def findAvailableBrowser (cfg : PoolConfig) (s : PoolState) : Option BrowserInstance :=
  s.instances.find? (fun inst =>
    inst.isHealthy && decide (getCount s.contextCounts inst.id < cfg.maxContextsPerBrowser))

/-- `launchBrowser`: `null` when the pool is at `maxBrowsers` or the engine
launch fails (`launchOk = false`); otherwise register the new instance with a
zero context count and return it. The source launch path contains no
`processQueue` call, so no such event is recorded. -/
def launchBrowser (cfg : PoolConfig) (s : PoolState) (newId : String) (now : Int)
    (launchOk : Bool) : PoolState × Option String × List PoolEvent :=
  if cfg.maxBrowsers ≤ s.instances.length then (s, none, [])
  else if launchOk then
    ({ s with
        instances := s.instances ++ [{ id := newId, isHealthy := true,
                                       createdAt := now, lastUsedAt := now }],
        contextCounts := setCount s.contextCounts newId 0 },
     some newId, [.launchedBrowser newId])
  else (s, none, [])

/-- The reservation step of `createContextFromInstance`: increment the
instance's context count and refresh `lastUsedAt`, before any engine call. -/
def reserveInstance (s : PoolState) (id : String) (now : Int) : PoolState :=
  { s with
      contextCounts := setCount s.contextCounts id (getCount s.contextCounts id + 1),
      instances := touchInstance s.instances id now }

/-- The decrement used on the failure path and in the cleanup override:
`this.contextCounts.set(id, Math.max(0, count - 1))`. -/
def releaseCount (s : PoolState) (id : String) : PoolState :=
  { s with contextCounts := setCount s.contextCounts id (max 0 (getCount s.contextCounts id - 1)) }

/-- `createContextFromInstance`: reserve first (count increment and
`lastUsedAt` refresh), then ask the engine for a context (oracle
`contextOutcome`); on failure decrement back and propagate the error. -/
def createContextFromInstance (s : PoolState) (id : String) (now : Int)
    (contextOutcome : Except String Unit) : PoolState × Except String PoolLease :=
  let s1 := reserveInstance s id now
  match contextOutcome with
  | .ok _ => (s1, .ok { browserId := id })
  | .error e => (releaseCount s1 id, .error e)

/-- `processQueue`: nothing to do on an empty queue or without an available
browser; otherwise shift the head item, clear its timer, and try
`createContextFromInstance` for it, resolving or rejecting that one item.
The source neither loops nor re-invokes itself afterwards. -/
def processQueue (cfg : PoolConfig) (s : PoolState) (now : Int)
    (contextOutcome : Except String Unit) : PoolState × List PoolEvent :=
  if s.queue.length = 0 then (s, [])
  else
    match findAvailableBrowser cfg s with
    | none => (s, [])
    | some inst =>
        match s.queue with
        | [] => (s, [])
        | item :: rest =>
            let s1 := { s with queue := rest }
            let step := createContextFromInstance s1 inst.id now contextOutcome
            match step.2 with
            | .ok lease => (step.1, [.resolvedPending item.reqId lease.browserId])
            | .error _ => (step.1, [.rejectedPending item.reqId])

/-- The cleanup override installed by `createContextFromInstance`: run the
engine-level cleanup (closes page then context, engine side), decrement the
owning instance's count with `Math.max(0, count - 1)`, then call
`this.processQueue()`. The source has no one-shot guard on this closure.
`queueContextOutcome` is the context-creation oracle for whatever item the
triggered `processQueue` may serve. -/
def leaseCleanup (cfg : PoolConfig) (s : PoolState) (browserId : String) (now : Int)
    (queueContextOutcome : Except String Unit) : PoolState × List PoolEvent :=
  let s1 := releaseCount s browserId
  let pq := processQueue cfg s1 now queueContextOutcome
  (pq.1, .processQueueCalled :: pq.2)

/-- `waitForAvailable` (the enqueue part): push a pending acquisition at the
tail of the FIFO queue. -/
def enqueueWaiter (s : PoolState) (reqId : String) : PoolState :=
  { s with queue := s.queue ++ [{ reqId := reqId }] }

/-- What an `acquire` call returns to its caller in this model. -/
inductive AcquireOutcome where
  | failedShuttingDown
  | lease (l : PoolLease)
  | contextError (e : String)
  | queued
  deriving Repr, DecidableEq

/-- `acquire`: fail when shutting down; try `findAvailableBrowser`, then a
launch when below `maxBrowsers`; with an instance in hand run
`createContextFromInstance`; with none, enqueue the caller
(`waitForAvailable`). Pool initialization is assumed complete. -/
def acquire (cfg : PoolConfig) (s : PoolState) (newId reqId : String) (now : Int)
    (launchOk : Bool) (contextOutcome : Except String Unit) : PoolState × AcquireOutcome :=
  if s.isShuttingDown then (s, .failedShuttingDown)
  else
    match findAvailableBrowser cfg s with
    | some inst =>
        let step := createContextFromInstance s inst.id now contextOutcome
        (step.1, match step.2 with | .ok l => .lease l | .error e => .contextError e)
    | none =>
        if s.instances.length < cfg.maxBrowsers then
          let launch := launchBrowser cfg s newId now launchOk
          match launch.2.1 with
          | some id =>
              let step := createContextFromInstance launch.1 id now contextOutcome
              (step.1, match step.2 with | .ok l => .lease l | .error e => .contextError e)
          | none => (enqueueWaiter launch.1 reqId, .queued)
        else (enqueueWaiter s reqId, .queued)

/-- A public pool operation with its oracle inputs, for reasoning about
arbitrary interleavings of acquire, release (including double release on the
same lease), launch, and queue processing. -/
inductive PoolOp where
  | opAcquire (newId reqId : String) (now : Int) (launchOk : Bool)
      (contextOutcome : Except String Unit)
  | opRelease (browserId : String) (now : Int) (queueContextOutcome : Except String Unit)
  | opLaunch (newId : String) (now : Int) (launchOk : Bool)
  | opProcessQueue (now : Int) (contextOutcome : Except String Unit)
  deriving Repr

/-- State effect of one pool operation. -/
def poolStep (cfg : PoolConfig) (s : PoolState) (op : PoolOp) : PoolState :=
  match op with
  | .opAcquire newId reqId now launchOk ctx => (acquire cfg s newId reqId now launchOk ctx).1
  | .opRelease id now qctx => (leaseCleanup cfg s id now qctx).1
  | .opLaunch newId now ok => (launchBrowser cfg s newId now ok).1
  | .opProcessQueue now ctx => (processQueue cfg s now ctx).1

/-- Run a sequence of pool operations. -/
def poolRun (cfg : PoolConfig) (s : PoolState) (ops : List PoolOp) : PoolState :=
  match ops with
  | [] => s
  | op :: rest => poolRun cfg (poolStep cfg s op) rest

/-- Every stored context count is non-negative. -/
def CountsNonneg (s : PoolState) : Prop :=
  ∀ p ∈ s.contextCounts, 0 ≤ p.2

/-! ### Helper lemmas about the count map -/

theorem getCount_nonneg (counts : List (String × Int)) (id : String)
    (h : ∀ p ∈ counts, 0 ≤ p.2) : 0 ≤ getCount counts id := by
  induction counts with
  | nil => simp [getCount]
  | cons p rest ih =>
      obtain ⟨k, c⟩ := p
      simp only [getCount]
      split
      · exact h (k, c) (by simp)
      · exact ih fun q hq => h q (by simp [hq])

theorem getCount_setCount_self (counts : List (String × Int)) (id : String) (v : Int) :
    getCount (setCount counts id v) id = v := by
  induction counts with
  | nil => simp [setCount, getCount]
  | cons p rest ih =>
      obtain ⟨k, c⟩ := p
      by_cases hk : k = id
      · simp [setCount, getCount, hk]
      · simp [setCount, getCount, hk, ih]

theorem setCount_nonneg (counts : List (String × Int)) (id : String) (v : Int)
    (hv : 0 ≤ v) (h : ∀ p ∈ counts, 0 ≤ p.2) : ∀ p ∈ setCount counts id v, 0 ≤ p.2 := by
  induction counts with
  | nil =>
      intro p hp
      simp only [setCount, List.mem_singleton] at hp
      simp [hp, hv]
  | cons q rest ih =>
      obtain ⟨k, c⟩ := q
      intro p hp
      simp only [setCount] at hp
      split at hp
      · rcases List.mem_cons.mp hp with hp | hp
        · simp [hp, hv]
        · exact h p (List.mem_cons_of_mem _ hp)
      · rcases List.mem_cons.mp hp with hp | hp
        · exact h p (by simp [hp])
        · exact ih (fun q hq => h q (List.mem_cons_of_mem _ hq)) p hp

/-! ### Invariant preservation lemmas -/

theorem countsNonneg_releaseCount {s : PoolState} (id : String) (h : CountsNonneg s) :
    CountsNonneg (releaseCount s id) := fun p hp =>
  setCount_nonneg _ _ _ (le_max_left 0 _) h p hp

theorem countsNonneg_reserveInstance {s : PoolState} (id : String) (now : Int)
    (h : CountsNonneg s) : CountsNonneg (reserveInstance s id now) := fun p hp =>
  setCount_nonneg _ _ _
    (by have := getCount_nonneg s.contextCounts id h; omega) h p hp

theorem countsNonneg_createContextFromInstance {s : PoolState} (id : String) (now : Int)
    (o : Except String Unit) (h : CountsNonneg s) :
    CountsNonneg (createContextFromInstance s id now o).1 := by
  cases o with
  | ok v => exact countsNonneg_reserveInstance id now h
  | error e => exact countsNonneg_releaseCount id (countsNonneg_reserveInstance id now h)

theorem countsNonneg_processQueue (cfg : PoolConfig) {s : PoolState} (now : Int)
    (o : Except String Unit) (h : CountsNonneg s) :
    CountsNonneg (processQueue cfg s now o).1 := by
  unfold processQueue
  split
  · exact h
  · cases hf : findAvailableBrowser cfg s with
    | none => simp only [hf]; exact h
    | some inst =>
        simp only [hf]
        cases hq : s.queue with
        | nil => exact h
        | cons item rest =>
            have h1 : CountsNonneg { s with queue := rest } := h
            have h2 := countsNonneg_createContextFromInstance (s := { s with queue := rest })
              inst.id now o h1
            cases ho : (createContextFromInstance { s with queue := rest } inst.id now o).2 with
            | ok lease => simpa [ho] using h2
            | error e => simpa [ho] using h2

theorem countsNonneg_launchBrowser (cfg : PoolConfig) {s : PoolState} (newId : String)
    (now : Int) (launchOk : Bool) (h : CountsNonneg s) :
    CountsNonneg (launchBrowser cfg s newId now launchOk).1 := by
  unfold launchBrowser
  split
  · exact h
  · split
    · exact fun p hp => setCount_nonneg _ _ _ le_rfl h p hp
    · exact h

theorem countsNonneg_leaseCleanup (cfg : PoolConfig) {s : PoolState} (id : String)
    (now : Int) (o : Except String Unit) (h : CountsNonneg s) :
    CountsNonneg (leaseCleanup cfg s id now o).1 :=
  countsNonneg_processQueue cfg now o (countsNonneg_releaseCount id h)

theorem countsNonneg_acquire (cfg : PoolConfig) {s : PoolState} (newId reqId : String)
    (now : Int) (launchOk : Bool) (o : Except String Unit) (h : CountsNonneg s) :
    CountsNonneg (acquire cfg s newId reqId now launchOk o).1 := by
  unfold acquire
  split
  · exact h
  · cases hf : findAvailableBrowser cfg s with
    | some inst =>
        simp only [hf]
        exact countsNonneg_createContextFromInstance inst.id now o h
    | none =>
        simp only [hf]
        split
        · cases hl : (launchBrowser cfg s newId now launchOk).2.1 with
          | some id2 =>
              simp only [hl]
              exact countsNonneg_createContextFromInstance id2 now o
                (countsNonneg_launchBrowser cfg newId now launchOk h)
          | none =>
              simp only [hl]
              exact countsNonneg_launchBrowser cfg newId now launchOk h
        · exact h

theorem countsNonneg_poolStep (cfg : PoolConfig) {s : PoolState} (op : PoolOp)
    (h : CountsNonneg s) : CountsNonneg (poolStep cfg s op) := by
  cases op with
  | opAcquire newId reqId now launchOk ctx => exact countsNonneg_acquire cfg newId reqId now launchOk ctx h
  | opRelease id now qctx => exact countsNonneg_leaseCleanup cfg id now qctx h
  | opLaunch newId now ok => exact countsNonneg_launchBrowser cfg newId now ok h
  | opProcessQueue now ctx => exact countsNonneg_processQueue cfg now ctx h

theorem countsNonneg_poolRun (cfg : PoolConfig) {s : PoolState} (ops : List PoolOp)
    (h : CountsNonneg s) : CountsNonneg (poolRun cfg s ops) := by
  induction ops generalizing s with
  | nil => exact h
  | cons op rest ih => exact ih (countsNonneg_poolStep cfg op h)

/-! ### Behaviour lemmas for processQueue and leaseCleanup -/

theorem processQueue_empty_queue (cfg : PoolConfig) (s : PoolState) (now : Int)
    (o : Except String Unit) (hq : s.queue = []) :
    processQueue cfg s now o = (s, []) := by
  unfold processQueue
  simp [hq]

theorem leaseCleanup_empty_queue (cfg : PoolConfig) (s : PoolState) (id : String)
    (now : Int) (o : Except String Unit) (hq : s.queue = []) :
    leaseCleanup cfg s id now o = (releaseCount s id, [PoolEvent.processQueueCalled]) := by
  have hpq : processQueue cfg (releaseCount s id) now o = (releaseCount s id, []) :=
    processQueue_empty_queue cfg (releaseCount s id) now o hq
  show ((processQueue cfg (releaseCount s id) now o).1,
        PoolEvent.processQueueCalled :: (processQueue cfg (releaseCount s id) now o).2)
      = (releaseCount s id, [PoolEvent.processQueueCalled])
  rw [hpq]

theorem processQueue_serves_head (cfg : PoolConfig) (s : PoolState) (now : Int)
    (o : Except String Unit) (item : QueueItem) (rest : List QueueItem)
    (inst : BrowserInstance) (hq : s.queue = item :: rest)
    (hf : findAvailableBrowser cfg s = some inst) :
    processQueue cfg s now o
      = ((createContextFromInstance { s with queue := rest } inst.id now o).1,
         match o with
         | .ok _ => [PoolEvent.resolvedPending item.reqId inst.id]
         | .error _ => [PoolEvent.rejectedPending item.reqId]) := by
  unfold processQueue
  rw [hf, hq]
  rw [if_neg (by simp)]
  cases o with
  | ok v => rfl
  | error e => rfl

theorem touchInstance_lastUsed (l : List BrowserInstance) (id : String) (now : Int) :
    ∀ inst ∈ touchInstance l id now, inst.id = id → inst.lastUsedAt = now := by
  intro inst hmem hid
  simp only [touchInstance, List.mem_map] at hmem
  obtain ⟨orig, horig, heq⟩ := hmem
  by_cases h : orig.id = id
  · rw [if_pos h] at heq
    rw [← heq]
  · rw [if_neg h] at heq
    exact absurd (heq ▸ hid) h

/-! ### Rate limiter window bound -/

theorem runIsAllowed_in_window (cfg : RateLimitConfig) (hEn : cfg.enabled = true) (w : Int) :
    ∀ (ts : List Int) (c : Nat), c ≤ cfg.maxRequests →
    (∀ t ∈ ts, w ≤ t ∧ t < w + (cfg.windowMs : Int)) →
    (runIsAllowed cfg (some ⟨c, w⟩) ts).2 + c ≤ cfg.maxRequests := by
  intro ts
  induction ts with
  | nil => intro c hc _; simpa [runIsAllowed] using hc
  | cons t ts ih =>
      intro c hc hts
      obtain ⟨hle, hlt⟩ := hts t (by simp)
      have hts' : ∀ u ∈ ts, w ≤ u ∧ u < w + (cfg.windowMs : Int) :=
        fun u hu => hts u (by simp [hu])
      have hnotexp : ¬ ((cfg.windowMs : Int) ≤ t - w) := by omega
      by_cases hfull : cfg.maxRequests ≤ c
      · have hstep : isAllowed cfg (some ⟨c, w⟩) t
            = (some ⟨c, w⟩, ⟨false, 0, w + (cfg.windowMs : Int)⟩) := by
          simp [isAllowed, hEn, hnotexp, hfull]
        have := ih c hc hts'
        simp only [runIsAllowed, hstep]
        simpa using this
      · have hlt' : c < cfg.maxRequests := by omega
        have hstep : isAllowed cfg (some ⟨c, w⟩) t
            = (some ⟨c + 1, w⟩,
               ⟨true, (cfg.maxRequests : Int) - ((c : Int) + 1), w + (cfg.windowMs : Int)⟩) := by
          simp [isAllowed, hEn, hnotexp, hfull]
        have := ih (c + 1) (by omega) hts'
        simp only [runIsAllowed, hstep]
        simp only [if_true, ite_true]
        omega

/-- `portOrDefault` on an absent (empty) port string yields the default. -/
theorem portOrDefault_empty (d : Nat) : portOrDefault "" d = d := rfl

/-! ### Claim theorems -/

/-- Claim C5, counterexample to the window bound as universally stated: with
`maxRequests = 0` (and the limiter enabled) the first call of a window is
still allowed by the install branch, so one call is allowed in the window
while the claim bounds allowed calls by `maxRequests = 0`. -/
theorem rateLimiter_zero_max_cex :
    (⟨60000, 0, true⟩ : RateLimitConfig).maxRequests = 0
    ∧ (runIsAllowed ⟨60000, 0, true⟩ none [0]).2 = 1 := by decide

/-- Claim C5 (amended: the per-window bound additionally assumes
`maxRequests ≥ 1`): with the limiter enabled, `isAllowed` follows the
fixed-window reference — no entry or an expired entry installs
`{count := 1, windowStart := now}` and allows, a full window denies with
`resetAt = windowStart + windowMs`, otherwise the count is incremented and
the call allowed — and, provided `maxRequests ≥ 1`, any sequence of calls for
one key lying inside a single window starting at its first call has at most
`maxRequests` allowed calls. -/
theorem rateLimiter_isAllowed_fixed_window :
    ∀ (cfg : RateLimitConfig) (now : Int),
      cfg.enabled = true →
      (isAllowed cfg none now
          = (some ⟨1, now⟩,
             ⟨true, (cfg.maxRequests : Int) - 1, now + (cfg.windowMs : Int)⟩))
      ∧ (∀ e : RateLimitEntry, (cfg.windowMs : Int) ≤ now - e.windowStart →
          isAllowed cfg (some e) now
            = (some ⟨1, now⟩,
               ⟨true, (cfg.maxRequests : Int) - 1, now + (cfg.windowMs : Int)⟩))
      ∧ (∀ e : RateLimitEntry, now - e.windowStart < (cfg.windowMs : Int) →
          cfg.maxRequests ≤ e.count →
          isAllowed cfg (some e) now
            = (some e, ⟨false, 0, e.windowStart + (cfg.windowMs : Int)⟩))
      ∧ (∀ e : RateLimitEntry, now - e.windowStart < (cfg.windowMs : Int) →
          e.count < cfg.maxRequests →
          isAllowed cfg (some e) now
            = (some ⟨e.count + 1, e.windowStart⟩,
               ⟨true, (cfg.maxRequests : Int) - ((e.count : Int) + 1),
                e.windowStart + (cfg.windowMs : Int)⟩))
      ∧ (∀ ts : List Int, 1 ≤ cfg.maxRequests →
          (∀ t ∈ ts, now ≤ t ∧ t < now + (cfg.windowMs : Int)) →
          (runIsAllowed cfg none (now :: ts)).2 ≤ cfg.maxRequests) := by
  intro cfg now hEn
  refine ⟨?_, ?_, ?_, ?_, ?_⟩
  · simp [isAllowed, hEn]
  · intro e he
    simp [isAllowed, hEn, he]
  · intro e h1 h2
    simp [isAllowed, hEn, not_le.mpr h1, h2]
  · intro e h1 h2
    simp [isAllowed, hEn, not_le.mpr h1, not_le.mpr h2]
  · intro ts hmax hts
    have hstep : isAllowed cfg none now
        = (some ⟨1, now⟩,
           ⟨true, (cfg.maxRequests : Int) - 1, now + (cfg.windowMs : Int)⟩) := by
      simp [isAllowed, hEn]
    have hrest := runIsAllowed_in_window cfg hEn now ts 1 hmax hts
    simp only [runIsAllowed, hstep]
    simp only [if_true, ite_true]
    omega

/-- Claim C5 witness: concrete instantiation with the default configuration
(60 s window, 30 requests, enabled). -/
theorem rateLimiter_isAllowed_fixed_window_witness :
    isAllowed ⟨60000, 30, true⟩ none 100
        = (some ⟨1, 100⟩, ⟨true, (30 : Int) - 1, 100 + (60000 : Int)⟩)
    ∧ (runIsAllowed ⟨60000, 30, true⟩ none [100, 150]).2 ≤ 30 := by
  have h := rateLimiter_isAllowed_fixed_window ⟨60000, 30, true⟩ 100 rfl
  exact ⟨h.1, h.2.2.2.2 [150] (by decide) (by decide)⟩

/-- Claim C6, counterexample: an outer-deadline failure carries first error
code `TOTAL_TIMEOUT`, and `handleRender` maps it to 500, not 504, because the
status expression only compares the first error code against `TIMEOUT`. -/
theorem total_timeout_maps_to_500_cex :
    (renderWithTimeout "req-1" none 60000).success = false
    ∧ ((renderWithTimeout "req-1" none 60000).errors.head?.map fun e2 => e2.code)
        = some "TOTAL_TIMEOUT"
    ∧ handleRenderStatus true true (.ok (renderWithTimeout "req-1" none 60000)) = 500 :=
  ⟨rfl, rfl, rfl⟩

/-- Claim C6 (amended: 504 is returned exactly when the render result's first
error code is the inner `TIMEOUT`; the outer `TOTAL_TIMEOUT` deadline and all
other failures map to 500): the HTTP status is 429 when rate-limited, 400 on
validation failure, 200 on success, 504 only for a first error code of
`TIMEOUT`, and 500 otherwise — in particular for the response built by
`renderWithTimeout` when the outer deadline fires. -/
theorem handleRender_status_mapping :
    ∀ (rateAllowed validationOk : Bool) (outcome : RenderCallOutcome),
      (rateAllowed = false → handleRenderStatus rateAllowed validationOk outcome = 429)
      ∧ (rateAllowed = true → validationOk = false →
          handleRenderStatus rateAllowed validationOk outcome = 400)
      ∧ (∀ m, rateAllowed = true → validationOk = true → outcome = .thrown m →
          handleRenderStatus rateAllowed validationOk outcome = 500)
      ∧ (∀ r, rateAllowed = true → validationOk = true → outcome = .ok r →
          r.success = true → handleRenderStatus rateAllowed validationOk outcome = 200)
      ∧ (∀ r, rateAllowed = true → validationOk = true → outcome = .ok r →
          r.success = false →
          handleRenderStatus rateAllowed validationOk outcome
            = if (r.errors.head?.map fun e2 => e2.code) = some "TIMEOUT" then 504 else 500)
      ∧ (∀ (rid : String) (mt : Nat),
          ((renderWithTimeout rid none mt).errors.head?.map fun e2 => e2.code)
              = some "TOTAL_TIMEOUT"
          ∧ handleRenderStatus true true (.ok (renderWithTimeout rid none mt)) = 500) := by
  intro ra vo o
  refine ⟨?_, ?_, ?_, ?_, ?_, ?_⟩
  · intro h; simp [handleRenderStatus, h]
  · intro h1 h2; simp [handleRenderStatus, h1, h2]
  · intro m h1 h2 h3; simp [handleRenderStatus, h1, h2, h3]
  · intro r h1 h2 h3 h4; simp [handleRenderStatus, h1, h2, h3, h4]
  · intro r h1 h2 h3 h4; simp [handleRenderStatus, h1, h2, h3, h4]
  · intro rid mt; exact ⟨rfl, rfl⟩

/-- Claim C6 witness: all five status branches at concrete inputs. -/
theorem handleRender_status_mapping_witness :
    handleRenderStatus false true (.thrown "x") = 429
    ∧ handleRenderStatus true false (.thrown "x") = 400
    ∧ handleRenderStatus true true (.thrown "x") = 500
    ∧ handleRenderStatus true true
        (.ok { success := true, request_id := "r", final_url := "u" }) = 200
    ∧ handleRenderStatus true true
        (.ok { success := false, request_id := "r", final_url := "",
               errors := [{ code := "TIMEOUT", message := "m" }] }) = 504 := by
  refine ⟨?_, ?_, ?_, ?_, ?_⟩
  · exact (handleRender_status_mapping false true (.thrown "x")).1 rfl
  · exact (handleRender_status_mapping true false (.thrown "x")).2.1 rfl rfl
  · exact (handleRender_status_mapping true true (.thrown "x")).2.2.1 "x" rfl rfl rfl
  · exact (handleRender_status_mapping true true
      (.ok { success := true, request_id := "r", final_url := "u" })).2.2.2.1 _ rfl rfl rfl rfl
  · have h := (handleRender_status_mapping true true
      (.ok { success := false, request_id := "r", final_url := "",
             errors := [{ code := "TIMEOUT", message := "m" }] })).2.2.2.2.1 _ rfl rfl rfl rfl
    simpa using h

/-- Claim C7: a navigation that resolves with a `null` response object yields
`{success: true, httpStatus: 200}` with `finalUrl` taken from `page.url()`. -/
theorem loadPage_null_response_success :
    ∀ (pageUrl url : String) (timeout_ms loadTimeMs : Nat),
      loadPage (.resolved none) pageUrl url timeout_ms loadTimeMs
        = { success := true, response := none, finalUrl := pageUrl,
            httpStatus := 200, loadTimeMs := loadTimeMs, error := none } := by
  intro pageUrl url t lt
  rfl

/-- Claim C8: `executeWaitFor` dispatches on the prefix (`css:` strips and
trims into a selector wait in the attached state, `js:` into a function wait,
anything else is a bare selector), every engine call carries the request's
`timeout_ms` as its sub-timeout, a rejected wait returns `{success: false}`,
and the render pipeline's success does not depend on the wait outcome: after
a successful navigation the response still has `success = true` and no
errors. -/
theorem executeWaitFor_dispatch_nonfatal :
    ∀ (w : String) (t : Nat) (engine : WaitCall → Except String Unit) (d : Nat),
      (strStartsWith w "css:" = true →
        waitForCall w t = .selectorAttached (strTrim (strDrop w 4)) t)
      ∧ (strStartsWith w "css:" = false → strStartsWith w "js:" = true →
        waitForCall w t = .jsFunction (strTrim (strDrop w 3)) t)
      ∧ (strStartsWith w "css:" = false → strStartsWith w "js:" = false →
        waitForCall w t = .selectorAttached w t)
      ∧ (engine (waitForCall w t) = .ok () →
        executeWaitFor w t engine d = { success := true, durationMs := d })
      ∧ (∀ msg, engine (waitForCall w t) = .error msg →
        executeWaitFor w t engine d
          = { success := false, error := some msg, durationMs := d })
      ∧ (∀ (requestId : String) (nav : NavigationResult) (pu js : Bool),
        nav.success = true →
        (renderResult requestId nav (some w) t engine d pu js).success = true
        ∧ (renderResult requestId nav (some w) t engine d pu js).errors = []) := by
  intro w t engine d
  refine ⟨?_, ?_, ?_, ?_, ?_, ?_⟩
  · intro h; simp [waitForCall, h]
  · intro h1 h2; simp [waitForCall, h1, h2]
  · intro h1 h2; simp [waitForCall, h1, h2]
  · intro h; simp [executeWaitFor, h]
  · intro msg h; simp [executeWaitFor, h]
  · intro rid nav pu js hnav
    constructor
    · simp [renderResult, hnav]
    · simp [renderResult, hnav]

/-- Claim C8 witness: a `css:`-prefixed wait that times out at the engine
still leaves the overall render successful. -/
theorem executeWaitFor_dispatch_nonfatal_witness :
    waitForCall "css: .price" 5000 = .selectorAttached ".price" 5000
    ∧ executeWaitFor "css: .price" 5000 (fun _ => .error "wait timeout") 12
        = { success := false, error := some "wait timeout", durationMs := 12 }
    ∧ (renderResult "r1"
          { success := true, response := none, finalUrl := "https://x/",
            httpStatus := 200, loadTimeMs := 10 }
          (some "css: .price") 5000 (fun _ => .error "wait timeout") 12 true true).success
        = true := by
  have h := executeWaitFor_dispatch_nonfatal "css: .price" 5000
    (fun _ => .error "wait timeout") 12
  refine ⟨?_, ?_, ?_⟩
  · exact h.1 (by decide)
  · exact h.2.2.2.2.1 "wait timeout" rfl
  · exact (h.2.2.2.2.2 "r1"
      { success := true, response := none, finalUrl := "https://x/",
        httpStatus := 200, loadTimeMs := 10 } true true rfl).1

/-- Claim C9: `parseProxy` accepts exactly the configs whose (protocol-completed)
server string parses as a URL with protocol in {http, https, socks5}, a
non-empty host, and effective username/password (config field, else URL
userinfo, empty collapsing to absent) both present or both absent; an absent
port defaults by protocol (443 for https, 8080 otherwise); and the emitted
server string is the normalized `protocol://host:port`. -/
theorem parseProxy_validation_spec :
    ∀ (cfg : ProxyConfig) (urlParse : String → Option URLParts),
      (urlParse (serverWithProtocol cfg.server) = none →
          (parseProxy cfg urlParse).valid = false)
      ∧ (∀ u : URLParts, urlParse (serverWithProtocol cfg.server) = some u →
          ((parseProxy cfg urlParse).valid = true
              ↔ (["http", "https", "socks5"].contains (stripColon u.protocol) = true
                  ∧ u.hostname ≠ ""
                  ∧ (jsOrString cfg.username u.username).isSome
                      = (jsOrString cfg.password u.password).isSome))
          ∧ ((parseProxy cfg urlParse).valid = true →
              ∃ p : ParsedProxy, (parseProxy cfg urlParse).parsed = some p
                ∧ p.protocol = stripColon u.protocol
                ∧ p.host = u.hostname
                ∧ p.server = p.protocol ++ "://" ++ p.host ++ ":" ++ toString p.port
                ∧ (u.port = "" → p.port = if p.protocol = "https" then 443 else 8080))) := by
  intro cfg urlParse
  constructor
  · intro h
    simp [parseProxy, h]
  · intro u hu
    simp only [parseProxy, hu]
    by_cases hb : (["http", "https", "socks5"].contains (stripColon u.protocol)) = true
    · rw [if_neg (show ¬ ((!(["http", "https", "socks5"].contains (stripColon u.protocol)))
          = true) by rw [hb]; decide)]
      by_cases hh : u.hostname = ""
      · rw [if_pos hh]
        exact ⟨⟨fun hv => absurd hv (by simp), fun hr => absurd hh hr.2.1⟩,
               fun hv => absurd hv (by simp)⟩
      · rw [if_neg hh]
        by_cases hcred : ((jsOrString cfg.username u.username).isSome
              && !(jsOrString cfg.password u.password).isSome
            || !(jsOrString cfg.username u.username).isSome
              && (jsOrString cfg.password u.password).isSome) = true
        · rw [if_pos hcred]
          refine ⟨⟨fun hv => absurd hv (by simp), fun hr => ?_⟩,
                  fun hv => absurd hv (by simp)⟩
          obtain ⟨-, -, hab⟩ := hr
          simp only [Bool.or_eq_true, Bool.and_eq_true, Bool.not_eq_true'] at hcred
          rcases hcred with ⟨ha, hb2⟩ | ⟨ha, hb2⟩ <;> rw [ha, hb2] at hab <;>
            exact absurd hab (by simp)
        · rw [if_neg hcred]
          have hab : (jsOrString cfg.username u.username).isSome
              = (jsOrString cfg.password u.password).isSome := by
            by_contra hne
            apply hcred
            cases ha : (jsOrString cfg.username u.username).isSome <;>
              cases hb2 : (jsOrString cfg.password u.password).isSome <;>
                simp_all
          refine ⟨⟨fun _ => ⟨hb, hh, hab⟩, fun _ => rfl⟩, fun _ => ?_⟩
          refine ⟨_, rfl, rfl, rfl, rfl, fun hp => ?_⟩
          show portOrDefault u.port (if stripColon u.protocol = "https" then 443 else 8080)
              = if stripColon u.protocol = "https" then 443 else 8080
          rw [hp]
          exact portOrDefault_empty _
    · have hb2 : (["http", "https", "socks5"].contains (stripColon u.protocol)) = false := by
        revert hb
        cases ["http", "https", "socks5"].contains (stripColon u.protocol) <;> simp
      rw [if_pos (show ((!(["http", "https", "socks5"].contains (stripColon u.protocol)))
          = true) by rw [hb2]; decide)]
      exact ⟨⟨fun hv => absurd hv (by simp), fun hr => absurd hr.1 hb⟩,
             fun hv => absurd hv (by simp)⟩

/-- Claim C9 witness: a server string without protocol or port is completed
to `http://`, parses, and normalizes with the protocol's default port. -/
theorem parseProxy_validation_spec_witness :
    (parseProxy { server := "proxy.example.com" }
        (fun s => if s = "http://proxy.example.com"
          then some { protocol := "http:", hostname := "proxy.example.com",
                      port := "", username := "", password := "" }
          else none)).valid = true
    ∧ (parseProxy { server := "proxy.example.com" }
        (fun s => if s = "http://proxy.example.com"
          then some { protocol := "http:", hostname := "proxy.example.com",
                      port := "", username := "", password := "" }
          else none)).parsed
        = some { server := "http://proxy.example.com:8080", protocol := "http",
                 host := "proxy.example.com", port := 8080,
                 username := none, password := none } := by
  constructor
  · exact ((parseProxy_validation_spec { server := "proxy.example.com" }
      (fun s => if s = "http://proxy.example.com"
        then some { protocol := "http:", hostname := "proxy.example.com",
                    port := "", username := "", password := "" }
        else none)).2
      { protocol := "http:", hostname := "proxy.example.com",
        port := "", username := "", password := "" } (by decide)).1.mpr (by decide)
  · decide

/-- Claim C10: whenever the request carries a proxy whose server string is
non-empty (so `hasProxy` holds) but `parseProxy` rejects it, `createContext`
passes no proxy option to the engine at all, yet `proxyUsed` — and hence the
response's `meta.proxy_used` flag — is still reported as `true`. -/
theorem proxy_used_flag_despite_unparsable_proxy :
    ∀ (p : ProxyConfig) (urlParse : String → Option URLParts),
      hasProxy (some p) = true →
      (parseProxy p urlParse).valid = false →
      (contextProxyDecision (some p) urlParse = (true, none)
        ∧ ∀ (requestId : String) (nav : NavigationResult) (t d : Nat)
            (engine : WaitCall → Except String Unit) (js : Bool),
            nav.success = true →
            (renderResult requestId nav none t engine d
                (contextProxyDecision (some p) urlParse).1 js).meta
              = some { proxy_used := true, http_status := nav.httpStatus,
                       js_rendered := js }) := by
  intro p urlParse h1 h2
  have hdec : contextProxyDecision (some p) urlParse = (true, none) := by
    simp [contextProxyDecision, h1, toPlaywrightProxy, h2]
  refine ⟨hdec, ?_⟩
  intro rid nav t d engine js hnav
  rw [hdec]
  simp [renderResult, hnav]

/-- Claim C10 witness: an `ftp://` proxy server is non-empty, fails
validation (unsupported protocol), and still yields `proxyUsed = true` with
no engine proxy configured. -/
theorem proxy_used_flag_despite_unparsable_proxy_witness :
    contextProxyDecision (some { server := "ftp://proxy.example.com:8080" })
        (fun s => if s = "ftp://proxy.example.com:8080"
          then some { protocol := "ftp:", hostname := "proxy.example.com",
                      port := "8080", username := "", password := "" }
          else none)
      = (true, none) :=
  (proxy_used_flag_despite_unparsable_proxy
    { server := "ftp://proxy.example.com:8080" }
    (fun s => if s = "ftp://proxy.example.com:8080"
      then some { protocol := "ftp:", hostname := "proxy.example.com",
                  port := "8080", username := "", password := "" }
      else none)
    (by decide) (by decide)).1

/-- Reserving and then failing the context creation restores the prior count
exactly, given the count was non-negative (`Math.max(0, (c+1)-1) = c`). -/
theorem getCount_release_reserve (s : PoolState) (id : String) (now : Int)
    (h0 : 0 ≤ getCount s.contextCounts id) :
    getCount (releaseCount (reserveInstance s id now) id).contextCounts id
      = getCount s.contextCounts id := by
  show getCount (setCount (reserveInstance s id now).contextCounts id
        (max 0 (getCount (reserveInstance s id now).contextCounts id - 1))) id
      = getCount s.contextCounts id
  rw [getCount_setCount_self]
  show max 0 (getCount (setCount s.contextCounts id
        (getCount s.contextCounts id + 1)) id - 1) = getCount s.contextCounts id
  rw [getCount_setCount_self]
  omega

/-- Claim C1, counterexample: a successful `launchBrowser` while the queue is
non-empty records no `processQueue` call, leaves the queue untouched, and
still ends with an available slot — so the head pending acquisition is not
dequeued after the successful launch (pool of max 2 browsers, 1 context each;
the existing browser is full; engine launch succeeds). -/
theorem launchBrowser_without_processQueue_cex :
    (launchBrowser ⟨1, 2, 1⟩ ⟨[⟨"b1", true, 0, 0⟩], [("b1", 1)], [⟨"r1"⟩], false⟩
        "b2" 5 true).2.1 = some "b2"
    ∧ (launchBrowser ⟨1, 2, 1⟩ ⟨[⟨"b1", true, 0, 0⟩], [("b1", 1)], [⟨"r1"⟩], false⟩
        "b2" 5 true).2.2 = [PoolEvent.launchedBrowser "b2"]
    ∧ PoolEvent.processQueueCalled ∉
        (launchBrowser ⟨1, 2, 1⟩ ⟨[⟨"b1", true, 0, 0⟩], [("b1", 1)], [⟨"r1"⟩], false⟩
          "b2" 5 true).2.2
    ∧ (launchBrowser ⟨1, 2, 1⟩ ⟨[⟨"b1", true, 0, 0⟩], [("b1", 1)], [⟨"r1"⟩], false⟩
        "b2" 5 true).1.queue = [⟨"r1"⟩]
    ∧ (findAvailableBrowser ⟨1, 2, 1⟩
        (launchBrowser ⟨1, 2, 1⟩ ⟨[⟨"b1", true, 0, 0⟩], [("b1", 1)], [⟨"r1"⟩], false⟩
          "b2" 5 true).1).isSome = true := by decide

/-- Claim C1 (amended: only lease releases trigger `processQueue`; successful
launches do not): every lease release (the cleanup override) invokes
`processQueue`; an invoked `processQueue` with a slot available and a
non-empty queue dequeues the head and serves it (resolving on context-creation
success, rejecting on failure); and no `launchBrowser` call — successful or
not — records a `processQueue` invocation. -/
theorem release_triggers_processQueue :
    ∀ (cfg : PoolConfig) (s : PoolState) (id : String) (now : Int)
      (o : Except String Unit) (item : QueueItem) (rest : List QueueItem)
      (inst : BrowserInstance) (newId : String) (launchOk : Bool),
      PoolEvent.processQueueCalled ∈ (leaseCleanup cfg s id now o).2
      ∧ (s.queue = item :: rest → findAvailableBrowser cfg s = some inst →
          ((processQueue cfg s now o).1.queue = rest
            ∧ (∀ v, o = .ok v → (processQueue cfg s now o).2
                = [PoolEvent.resolvedPending item.reqId inst.id])
            ∧ (∀ e, o = .error e → (processQueue cfg s now o).2
                = [PoolEvent.rejectedPending item.reqId])))
      ∧ PoolEvent.processQueueCalled ∉ (launchBrowser cfg s newId now launchOk).2.2 := by
  intro cfg s id now o item rest inst newId launchOk
  refine ⟨?_, ?_, ?_⟩
  · show PoolEvent.processQueueCalled ∈
      PoolEvent.processQueueCalled :: (processQueue cfg (releaseCount s id) now o).2
    exact List.mem_cons_self _ _
  · intro hq hf
    rw [processQueue_serves_head cfg s now o item rest inst hq hf]
    refine ⟨?_, ?_, ?_⟩
    · cases o with
      | ok v => rfl
      | error e => rfl
    · intro v hv; subst hv; rfl
    · intro e he; subst he; rfl
  · unfold launchBrowser
    split
    · simp
    · split
      · simp
      · simp

/-- Claim C1 witness: a release on an empty-queue pool records the
`processQueue` call, and an invoked `processQueue` with a waiter and a free
slot resolves the head. -/
theorem release_triggers_processQueue_witness :
    PoolEvent.processQueueCalled ∈
      (leaseCleanup ⟨1, 2, 1⟩ ⟨[⟨"b1", true, 0, 0⟩], [("b1", 1)], [], false⟩
        "b1" 3 (.ok ())).2
    ∧ (processQueue ⟨1, 2, 1⟩ ⟨[⟨"b1", true, 0, 0⟩], [("b1", 0)], [⟨"r1"⟩], false⟩
        3 (.ok ())).2 = [PoolEvent.resolvedPending "r1" "b1"] := by
  constructor
  · exact (release_triggers_processQueue ⟨1, 2, 1⟩
      ⟨[⟨"b1", true, 0, 0⟩], [("b1", 1)], [], false⟩ "b1" 3 (.ok ())
      ⟨"r1"⟩ [] ⟨"b1", true, 0, 0⟩ "bX" true).1
  · exact ((release_triggers_processQueue ⟨1, 2, 1⟩
      ⟨[⟨"b1", true, 0, 0⟩], [("b1", 0)], [⟨"r1"⟩], false⟩ "b1" 3 (.ok ())
      ⟨"r1"⟩ [] ⟨"b1", true, 0, 0⟩ "bX" true).2.1 rfl (by decide)).2.1 () rfl

/-- Claim C2, counterexample: the cleanup override has no one-shot guard, so
with two leases on instance `b1` (count 2) a double release of one lease
drives the count from 2 to 1 and then to 0 — the second call does not leave
the count unchanged, and the other live lease is no longer accounted. -/
theorem double_release_changes_count_cex :
    getCount (leaseCleanup ⟨1, 3, 5⟩ ⟨[⟨"b1", true, 0, 0⟩], [("b1", 2)], [], false⟩
        "b1" 1 (.ok ())).1.contextCounts "b1" = 1
    ∧ getCount (leaseCleanup ⟨1, 3, 5⟩
        (leaseCleanup ⟨1, 3, 5⟩ ⟨[⟨"b1", true, 0, 0⟩], [("b1", 2)], [], false⟩
          "b1" 1 (.ok ())).1
        "b1" 2 (.ok ())).1.contextCounts "b1" = 0 := by decide

/-- Claim C2 (amended: there is no one-shot guard, so a second cleanup
decrements again, saturating at zero — it leaves the count unchanged only
when the count is already zero; the saturation part of the claim holds):
on an idle queue, one cleanup takes the count to `max 0 (c - 1)` and a second
to `max 0 (max 0 (c - 1) - 1)`; and under any sequence of acquire, release,
double-release, launch authorization and queue-processing operations, every
stored lease count stays non-negative. -/
theorem release_saturating_accounting :
    ∀ (cfg : PoolConfig) (s : PoolState) (id : String) (n1 n2 : Int)
      (o1 o2 : Except String Unit) (ops : List PoolOp),
      (s.queue = [] →
        getCount (leaseCleanup cfg s id n1 o1).1.contextCounts id
            = max 0 (getCount s.contextCounts id - 1)
          ∧ getCount (leaseCleanup cfg (leaseCleanup cfg s id n1 o1).1 id n2 o2).1.contextCounts id
            = max 0 (max 0 (getCount s.contextCounts id - 1) - 1))
      ∧ (CountsNonneg s → CountsNonneg (poolRun cfg s ops)) := by
  intro cfg s id n1 n2 o1 o2 ops
  constructor
  · intro hq
    have h1 : leaseCleanup cfg s id n1 o1 = (releaseCount s id, [PoolEvent.processQueueCalled]) :=
      leaseCleanup_empty_queue cfg s id n1 o1 hq
    have hq1 : (releaseCount s id).queue = [] := hq
    have h2 : leaseCleanup cfg (releaseCount s id) id n2 o2
        = (releaseCount (releaseCount s id) id, [PoolEvent.processQueueCalled]) :=
      leaseCleanup_empty_queue cfg (releaseCount s id) id n2 o2 hq1
    constructor
    · rw [h1]
      show getCount (setCount s.contextCounts id
            (max 0 (getCount s.contextCounts id - 1))) id = _
      rw [getCount_setCount_self]
    · have e1 : (leaseCleanup cfg s id n1 o1).1 = releaseCount s id := by rw [h1]
      rw [e1, h2]
      show getCount (setCount (releaseCount s id).contextCounts id
            (max 0 (getCount (releaseCount s id).contextCounts id - 1))) id
          = max 0 (max 0 (getCount s.contextCounts id - 1) - 1)
      rw [getCount_setCount_self]
      show max 0 (getCount (setCount s.contextCounts id
            (max 0 (getCount s.contextCounts id - 1))) id - 1) = _
      rw [getCount_setCount_self]
  · intro h
    exact countsNonneg_poolRun cfg ops h

/-- Claim C2 witness: the double-release equations at count 2 and the
non-negativity invariant across a concrete operation sequence including a
double release. -/
theorem release_saturating_accounting_witness :
    getCount (leaseCleanup ⟨1, 3, 5⟩ ⟨[⟨"b1", true, 0, 0⟩], [("b1", 2)], [], false⟩
        "b1" 1 (.ok ())).1.contextCounts "b1"
      = max 0 (getCount (⟨[⟨"b1", true, 0, 0⟩], [("b1", 2)], [], false⟩
          : PoolState).contextCounts "b1" - 1)
    ∧ CountsNonneg (poolRun ⟨1, 3, 5⟩ ⟨[⟨"b1", true, 0, 0⟩], [("b1", 2)], [], false⟩
        [.opRelease "b1" 1 (.ok ()), .opRelease "b1" 2 (.ok ()),
         .opRelease "b1" 3 (.ok ())]) := by
  have h := release_saturating_accounting ⟨1, 3, 5⟩
    ⟨[⟨"b1", true, 0, 0⟩], [("b1", 2)], [], false⟩ "b1" 1 2 (.ok ()) (.ok ())
    [.opRelease "b1" 1 (.ok ()), .opRelease "b1" 2 (.ok ()), .opRelease "b1" 3 (.ok ())]
  exact ⟨(h.1 rfl).1, h.2 (by intro p hp; simp at hp; subst hp; decide)⟩

/-- Claim C3: `createContextFromInstance` increments the selected instance's
count and refreshes `lastUsedAt` before the engine context call (the reserved
state is the one handed to `createContext`), and when context creation fails
it decrements back — restoring exactly the prior (non-negative) count via the
`Math.max(0, ·)` floor — and propagates the error to the caller. -/
theorem acquire_reserves_before_context_creation :
    ∀ (s : PoolState) (id : String) (now : Int) (o : Except String Unit) (e : String),
      0 ≤ getCount s.contextCounts id →
      (getCount (reserveInstance s id now).contextCounts id
          = getCount s.contextCounts id + 1
        ∧ (∀ inst ∈ (reserveInstance s id now).instances,
            inst.id = id → inst.lastUsedAt = now)
        ∧ (createContextFromInstance s id now o).1
            = (match o with
               | .ok _ => reserveInstance s id now
               | .error _ => releaseCount (reserveInstance s id now) id)
        ∧ (createContextFromInstance s id now (.error e)).2 = .error e
        ∧ getCount (createContextFromInstance s id now (.error e)).1.contextCounts id
            = getCount s.contextCounts id) := by
  intro s id now o e h0
  refine ⟨?_, ?_, ?_, rfl, ?_⟩
  · show getCount (setCount s.contextCounts id (getCount s.contextCounts id + 1)) id = _
    rw [getCount_setCount_self]
  · exact touchInstance_lastUsed s.instances id now
  · cases o with
    | ok v => rfl
    | error e2 => rfl
  · exact getCount_release_reserve s id now h0

/-- Claim C3 witness: reservation and failure rollback at count 2. -/
theorem acquire_reserves_before_context_creation_witness :
    getCount (reserveInstance ⟨[⟨"b1", true, 0, 0⟩], [("b1", 2)], [], false⟩
        "b1" 7).contextCounts "b1"
      = getCount [("b1", (2 : Int))] "b1" + 1
    ∧ (createContextFromInstance ⟨[⟨"b1", true, 0, 0⟩], [("b1", 2)], [], false⟩
        "b1" 7 (.error "ctx failed")).2 = .error "ctx failed"
    ∧ getCount (createContextFromInstance ⟨[⟨"b1", true, 0, 0⟩], [("b1", 2)], [], false⟩
        "b1" 7 (.error "ctx failed")).1.contextCounts "b1"
      = getCount [("b1", (2 : Int))] "b1" := by
  have h := acquire_reserves_before_context_creation
    ⟨[⟨"b1", true, 0, 0⟩], [("b1", 2)], [], false⟩ "b1" 7 (.error "ctx failed")
    "ctx failed" (by decide)
  exact ⟨h.1, h.2.2.2.1, h.2.2.2.2⟩

/-- Claim C4, counterexample: with two waiters queued and a free slot, a
failing context creation rejects the head — but `processQueue` returns
without touching the rest of the queue, even though a slot is still
available; the second waiter is not dequeued or served in this drain. -/
theorem processQueue_no_drain_after_failure_cex :
    (processQueue ⟨1, 3, 5⟩ ⟨[⟨"b1", true, 0, 0⟩], [("b1", 0)], [⟨"r1"⟩, ⟨"r2"⟩], false⟩
        1 (.error "boom")).2 = [PoolEvent.rejectedPending "r1"]
    ∧ (processQueue ⟨1, 3, 5⟩ ⟨[⟨"b1", true, 0, 0⟩], [("b1", 0)], [⟨"r1"⟩, ⟨"r2"⟩], false⟩
        1 (.error "boom")).1.queue = [⟨"r2"⟩]
    ∧ (findAvailableBrowser ⟨1, 3, 5⟩
        (processQueue ⟨1, 3, 5⟩ ⟨[⟨"b1", true, 0, 0⟩], [("b1", 0)], [⟨"r1"⟩, ⟨"r2"⟩], false⟩
          1 (.error "boom")).1).isSome = true
    ∧ PoolEvent.resolvedPending "r2" "b1" ∉
        (processQueue ⟨1, 3, 5⟩ ⟨[⟨"b1", true, 0, 0⟩], [("b1", 0)], [⟨"r1"⟩, ⟨"r2"⟩], false⟩
          1 (.error "boom")).2
    ∧ PoolEvent.rejectedPending "r2" ∉
        (processQueue ⟨1, 3, 5⟩ ⟨[⟨"b1", true, 0, 0⟩], [("b1", 0)], [⟨"r1"⟩, ⟨"r2"⟩], false⟩
          1 (.error "boom")).2 := by decide

/-- Claim C4 (amended: the rejected-with-the-error part holds, but
`processQueue` serves at most one queued acquisition per invocation and does
not continue draining after a failure — the remaining items stay queued,
with the instance's count restored, until a later invocation): when the
dequeued head's context creation fails, the head is rejected with the error,
the rest of the queue is exactly what remains, and the chosen instance's
count is back to its prior value. -/
theorem processQueue_rejects_failed_head :
    ∀ (cfg : PoolConfig) (s : PoolState) (now : Int) (e : String)
      (item : QueueItem) (rest : List QueueItem) (inst : BrowserInstance),
      s.queue = item :: rest →
      findAvailableBrowser cfg s = some inst →
      0 ≤ getCount s.contextCounts inst.id →
      ((processQueue cfg s now (.error e)).2 = [PoolEvent.rejectedPending item.reqId]
        ∧ (processQueue cfg s now (.error e)).1.queue = rest
        ∧ getCount (processQueue cfg s now (.error e)).1.contextCounts inst.id
            = getCount s.contextCounts inst.id) := by
  intro cfg s now e item rest inst hq hf h0
  rw [processQueue_serves_head cfg s now (.error e) item rest inst hq hf]
  refine ⟨rfl, rfl, ?_⟩
  exact getCount_release_reserve { s with queue := rest } inst.id now h0

/-- Claim C4 witness: concrete failing drain with one waiter behind the head. -/
theorem processQueue_rejects_failed_head_witness :
    (processQueue ⟨1, 3, 5⟩ ⟨[⟨"b1", true, 0, 0⟩], [("b1", 0)], [⟨"ra"⟩, ⟨"rb"⟩], false⟩
        4 (.error "ctx failed")).2 = [PoolEvent.rejectedPending "ra"]
    ∧ (processQueue ⟨1, 3, 5⟩ ⟨[⟨"b1", true, 0, 0⟩], [("b1", 0)], [⟨"ra"⟩, ⟨"rb"⟩], false⟩
        4 (.error "ctx failed")).1.queue = [⟨"rb"⟩]
    ∧ getCount (processQueue ⟨1, 3, 5⟩
        ⟨[⟨"b1", true, 0, 0⟩], [("b1", 0)], [⟨"ra"⟩, ⟨"rb"⟩], false⟩
        4 (.error "ctx failed")).1.contextCounts "b1"
      = getCount (⟨[⟨"b1", true, 0, 0⟩], [("b1", 0)], [⟨"ra"⟩, ⟨"rb"⟩], false⟩
          : PoolState).contextCounts "b1" := by
  have h := processQueue_rejects_failed_head ⟨1, 3, 5⟩
    ⟨[⟨"b1", true, 0, 0⟩], [("b1", 0)], [⟨"ra"⟩, ⟨"rb"⟩], false⟩ 4 "ctx failed"
    ⟨"ra"⟩ [⟨"rb"⟩] ⟨"b1", true, 0, 0⟩ rfl (by decide) (by decide)
  exact h

end WebUnlock
